import Mathlib

/-!
# gowebber: session gating and profile handlers

A shallow embedding of `handlers.go` (with the types of `profile.go` and the
package variables `DB` and `store` of `db.go`).  Every handler is a pure
function from an environment (the request together with the results the
external collaborators give during that request: cookie store, database,
bcrypt, template engine) to the trace of observable events the handler
produces and the values held by the session object when the handler returns.
-/

namespace Gowebber

/-! ## Data model -/

/-- Dynamic value stored in `session.Values` (a Go `interface{}`). -/
inductive Value where
  | bool (b : Bool)
  | str (s : String)
  | int (i : Int)
  deriving DecidableEq, Repr

/-- The map `session.Values`, as an association list with at most the first
binding of a key visible. -/
abbrev Values := List (String × Value)

/-- Map read `m[k]`: `none` is the nil interface of a missing key. -/
def mapGet (m : Values) (k : String) : Option Value :=
  m.lookup k

/-- Map removal `delete(m, k)`. -/
def mapDelete (m : Values) (k : String) : Values :=
  m.filter (fun p => p.1 != k)

/-- Map write `m[k] = v`. -/
def mapSet (m : Values) (k : String) (v : Value) : Values :=
  (k, v) :: mapDelete m k

/-- The keys a `range` over the map visits. -/
def mapKeys (m : Values) : List String :=
  m.map (fun p => p.1)

/-- Type assertion `v.(bool)` in its two-result form: `(auth, ok)`. -/
def assertBool : Option Value → Bool × Bool
  | some (Value.bool b) => (b, true)
  | _ => (false, false)

/-- Profile row (`profile.go`). -/
structure Profile where
  ID : Int
  Name : String
  Age : Int
  Occupation : String
  deriving DecidableEq, Repr

/-- Zero value of `Profile`. -/
def Profile.zero : Profile := ⟨0, "", 0, ""⟩

/-- Data handed to the templates (`profile.go`). -/
structure TemplateData where
  IsAuthenticated : Bool
  Profiles : List Profile
  Profile : Profile
  deriving DecidableEq, Repr

/-- Error of `QueryRow(...).Scan`: no matching row, or any other failure. -/
inductive DBError where
  | noRows
  | storage (msg : String)
  deriving DecidableEq, Repr

/-- Text of a `DBError` (`err.Error()`). -/
def DBError.text : DBError → String
  | DBError.noRows => "sql: no rows in result set"
  | DBError.storage msg => msg

/-- Observable events of one handler run, in program order. -/
inductive Event where
  | logPrintln (msg : String)
  | httpError (body : String) (code : Nat)
  | redirect (url : String) (code : Nat)
  | templateExecute (tmpl : String) (data : TemplateData)
  | dbQuery (sql : String) (args : List String)
  | dbQueryRow (sql : String) (args : List String)
  | dbExec (sql : String) (args : List String)
  | sessionSet (key : String) (v : Value)
  | sessionDelete (key : String)
  | sessionSave (vals : Values)
  | fatal (msg : String)
  deriving DecidableEq, Repr

/-- The parts of `*http.Request` the handlers read. -/
structure Request where
  method : String
  query : List (String × String)
  form : List (String × String)

/-- Call `r.URL.Query().Get(k)`: empty when the key is missing. -/
def Request.queryGet (r : Request) (k : String) : String :=
  (r.query.lookup k).getD ""

/-- Call `r.FormValue(k)`: empty when the key is missing. -/
def Request.formValue (r : Request) (k : String) : String :=
  (r.form.lookup k).getD ""

/-- A request and what the collaborators answer while it is handled.  A Go
`error` result is an `Option String`: `none` is `nil`. -/
structure Env where
  req : Request
  /-- Result of `store.Get(r, "session")` (the registry caches it, every call
  of one request gives the same result). -/
  storeGet : Except String Values
  /-- Result of `session.Save(r, w)` for the given values. -/
  sessionSave : Values → Option String
  /-- Result of `DB.Query(sql)`: the rows, each with the result of its `Scan`. -/
  dbQuery : String → Except String (List (Except String Profile))
  /-- Result of `DB.QueryRow(sql, args...).Scan` into a profile. -/
  dbQueryRowProfile : String → List String → Except DBError Profile
  /-- Result of `DB.QueryRow(sql, args...).Scan` into a string. -/
  dbQueryRowString : String → List String → Except DBError String
  /-- Result of `DB.Exec(sql, args...)`. -/
  dbExec : String → List String → Option String
  /-- Result of `bcrypt.GenerateFromPassword`. -/
  bcryptGenerate : String → Except String String
  /-- Result of `bcrypt.CompareHashAndPassword(hash, password)`. -/
  bcryptCompare : String → String → Option String
  /-- Result of `template.ParseFiles(base, tmpl)`. -/
  parseFiles : String → String → Option String
  /-- Result of `t.Execute(w, data)`. -/
  execute : String → TemplateData → Option String

/-- What a handler run leaves behind: the event trace and the values of the
session object at return (`none` when the session did not load). -/
structure Outcome where
  events : List Event
  session : Option Values
  deriving DecidableEq, Repr

/-! ## HTTP status codes and SQL texts used by the handlers -/

def StatusSeeOther : Nat := 303
def StatusBadRequest : Nat := 400
def StatusUnauthorized : Nat := 401
def StatusNotFound : Nat := 404
def StatusMethodNotAllowed : Nat := 405
def StatusInternalServerError : Nat := 500

def sqlSelectAll : String := "SELECT * FROM profiles"
def sqlSelectOne : String := "SELECT id, name, age, occupation FROM profiles WHERE id = $1"
def sqlInsertProfile : String := "INSERT INTO profiles (name, age, occupation) VALUES ($1, $2, $3)"
def sqlUpdateProfile : String := "UPDATE profiles SET name = $1, age = $2, occupation = $3 WHERE id = $4"
def sqlDeleteProfile : String := "DELETE FROM profiles WHERE id = $1"
def sqlInsertUser : String := "INSERT INTO users(username, password) VALUES($1, $2)"
def sqlSelectPassword : String := "SELECT password FROM users WHERE username=$1"
def msgNotAuthenticated : String := "Not authenticated. Redirecting to /login"

/-! ## Session helpers -/

/-- The test `auth, ok := session.Values["authenticated"].(bool); ok && auth`. -/
def authFlag (vals : Values) : Bool :=
  let p := assertBool (mapGet vals "authenticated")
  p.2 && p.1

/-- Function `isAuthenticated` (handlers.go 12-20). -/
def isAuthenticated (w : Env) : Bool :=
  match w.storeGet with
  | Except.error _ => false
  | Except.ok vals => authFlag vals

/-- The session object as loaded, `none` when `store.Get` failed. -/
def loaded (w : Env) : Option Values :=
  match w.storeGet with
  | Except.error _ => none
  | Except.ok vals => some vals

/-- The two writes of `login` (handlers.go 371-372). -/
def establish (vals : Values) (username : String) : Values :=
  mapSet (mapSet vals "authenticated" (Value.bool true)) "username" (Value.str username)

/-- The loop of `logout` (handlers.go 398-400): every key the range visits is
deleted. -/
def clearValues (vals : Values) : Values :=
  (mapKeys vals).foldl mapDelete vals

/-- Function `renderTemplate` (handlers.go 23-39). -/
def renderTemplate (w : Env) (tmpl : String) (data : TemplateData) : List Event :=
  let path := "templates/" ++ tmpl
  match w.parseFiles "templates/base.html" path with
  | some e => [Event.httpError e StatusInternalServerError]
  | none =>
    match w.execute path data with
    | none => [Event.templateExecute path data]
    | some e => [Event.templateExecute path data, Event.httpError e StatusInternalServerError]

/-- The loop `for rows.Next()` of `profiles` (handlers.go 82-90): the first
failing `Scan` stops it. -/
def scanRows : List (Except String Profile) → Except String (List Profile)
  | [] => Except.ok []
  | Except.error e :: _ => Except.error e
  | Except.ok p :: rest =>
    match scanRows rest with
    | Except.error e => Except.error e
    | Except.ok ps => Except.ok (p :: ps)

/-! ## Handlers -/

/-- Handler `index` (handlers.go 42-49); the 405 branch has no `return`. -/
def index (w : Env) : Outcome :=
  let pre := if w.req.method ≠ "GET" then
    [Event.httpError "Method Not Allowed" StatusMethodNotAllowed] else []
  ⟨pre ++ renderTemplate w "index.html" ⟨isAuthenticated w, [], Profile.zero⟩, loaded w⟩

/-- Handler `profiles` (handlers.go 52-99). -/
def profiles (w : Env) : Outcome :=
  if w.req.method ≠ "GET" then
    ⟨[Event.httpError "Method Not Allowed" StatusMethodNotAllowed], loaded w⟩
  else
    match w.storeGet with
    | Except.error e => ⟨[Event.httpError e StatusInternalServerError], none⟩
    | Except.ok vals =>
      let p := assertBool (mapGet vals "authenticated")
      if !p.2 || !p.1 then
        ⟨[Event.logPrintln msgNotAuthenticated, Event.redirect "/login" StatusSeeOther], some vals⟩
      else
        match w.dbQuery sqlSelectAll with
        | Except.error e => ⟨[Event.dbQuery sqlSelectAll [], Event.fatal e], some vals⟩
        | Except.ok rows =>
          match scanRows rows with
          | Except.error e =>
            ⟨[Event.dbQuery sqlSelectAll [], Event.httpError e StatusInternalServerError], some vals⟩
          | Except.ok ps =>
            ⟨Event.dbQuery sqlSelectAll [] ::
              renderTemplate w "profiles.html" ⟨isAuthenticated w, ps, Profile.zero⟩, some vals⟩

/-- Handler `profile` (handlers.go 102-145). -/
def profile (w : Env) : Outcome :=
  if w.req.method ≠ "GET" then
    ⟨[Event.httpError "Method Not Allowed" StatusMethodNotAllowed], loaded w⟩
  else
    match w.storeGet with
    | Except.error e => ⟨[Event.httpError e StatusInternalServerError], none⟩
    | Except.ok vals =>
      let p := assertBool (mapGet vals "authenticated")
      if !p.2 || !p.1 then
        ⟨[Event.logPrintln msgNotAuthenticated, Event.redirect "/login" StatusSeeOther], some vals⟩
      else
        let id := w.req.queryGet "id"
        if id = "" then
          ⟨[Event.httpError "Profile ID not provided" StatusBadRequest], some vals⟩
        else
          match w.dbQueryRowProfile sqlSelectOne [id] with
          | Except.error _ =>
            ⟨[Event.dbQueryRow sqlSelectOne [id],
              Event.httpError "Profile not found" StatusNotFound], some vals⟩
          | Except.ok pr =>
            ⟨Event.dbQueryRow sqlSelectOne [id] ::
              renderTemplate w "profile.html" ⟨isAuthenticated w, [], pr⟩, some vals⟩

/-- Handler `addProfile` (handlers.go 148-187). -/
def addProfile (w : Env) : Outcome :=
  let data : TemplateData := ⟨isAuthenticated w, [], Profile.zero⟩
  match w.storeGet with
  | Except.error e => ⟨[Event.httpError e StatusInternalServerError], none⟩
  | Except.ok vals =>
    let p := assertBool (mapGet vals "authenticated")
    if !p.2 || !p.1 then
      ⟨[Event.logPrintln msgNotAuthenticated, Event.redirect "/login" StatusSeeOther], some vals⟩
    else if w.req.method = "GET" then
      ⟨renderTemplate w "addprofile.html" data, some vals⟩
    else if w.req.method = "POST" then
      let name := w.req.formValue "name"
      let age := w.req.formValue "age"
      let occupation := w.req.formValue "occupation"
      match w.dbExec sqlInsertProfile [name, age, occupation] with
      | some _ =>
        ⟨[Event.dbExec sqlInsertProfile [name, age, occupation],
          Event.httpError "Failed to insert into database" StatusInternalServerError], some vals⟩
      | none =>
        ⟨[Event.dbExec sqlInsertProfile [name, age, occupation],
          Event.redirect "/profiles" StatusSeeOther], some vals⟩
    else
      ⟨[Event.httpError "Method Not Allowed" StatusMethodNotAllowed], some vals⟩

/-- Handler `editProfile` (handlers.go 190-248). -/
def editProfile (w : Env) : Outcome :=
  match w.storeGet with
  | Except.error e => ⟨[Event.httpError e StatusInternalServerError], none⟩
  | Except.ok vals =>
    let p := assertBool (mapGet vals "authenticated")
    if !p.2 || !p.1 then
      ⟨[Event.logPrintln msgNotAuthenticated, Event.redirect "/login" StatusSeeOther], some vals⟩
    else if w.req.method = "GET" then
      let id := w.req.queryGet "id"
      if id = "" then
        ⟨[Event.httpError "Profile ID not provided" StatusBadRequest], some vals⟩
      else
        match w.dbQueryRowProfile sqlSelectOne [id] with
        | Except.error _ =>
          ⟨[Event.dbQueryRow sqlSelectOne [id],
            Event.httpError "Profile not found" StatusNotFound], some vals⟩
        | Except.ok pr =>
          ⟨Event.dbQueryRow sqlSelectOne [id] ::
            renderTemplate w "editprofile.html" ⟨isAuthenticated w, [], pr⟩, some vals⟩
    else if w.req.method = "POST" then
      let id := w.req.formValue "id"
      let name := w.req.formValue "name"
      let age := w.req.formValue "age"
      let occupation := w.req.formValue "occupation"
      match w.dbExec sqlUpdateProfile [name, age, occupation, id] with
      | some e =>
        ⟨[Event.dbExec sqlUpdateProfile [name, age, occupation, id],
          Event.httpError e StatusInternalServerError], some vals⟩
      | none =>
        ⟨[Event.dbExec sqlUpdateProfile [name, age, occupation, id],
          Event.redirect "/profiles" StatusSeeOther], some vals⟩
    else
      ⟨[Event.httpError "Method Not Allowed" StatusMethodNotAllowed], some vals⟩

/-- Handler `deleteProfile` (handlers.go 251-307). -/
def deleteProfile (w : Env) : Outcome :=
  match w.storeGet with
  | Except.error e => ⟨[Event.httpError e StatusInternalServerError], none⟩
  | Except.ok vals =>
    let p := assertBool (mapGet vals "authenticated")
    if !p.2 || !p.1 then
      ⟨[Event.logPrintln msgNotAuthenticated, Event.redirect "/login" StatusSeeOther], some vals⟩
    else if w.req.method = "GET" then
      let id := w.req.queryGet "id"
      if id = "" then
        ⟨[Event.httpError "Profile ID not provided" StatusBadRequest], some vals⟩
      else
        match w.dbQueryRowProfile sqlSelectOne [id] with
        | Except.error _ =>
          ⟨[Event.dbQueryRow sqlSelectOne [id],
            Event.httpError "Profile not found" StatusNotFound], some vals⟩
        | Except.ok pr =>
          ⟨Event.dbQueryRow sqlSelectOne [id] ::
            renderTemplate w "deleteprofile.html" ⟨isAuthenticated w, [], pr⟩, some vals⟩
    else if w.req.method = "POST" then
      let id := w.req.formValue "id"
      match w.dbExec sqlDeleteProfile [id] with
      | some e =>
        ⟨[Event.dbExec sqlDeleteProfile [id],
          Event.httpError e StatusInternalServerError], some vals⟩
      | none =>
        ⟨[Event.dbExec sqlDeleteProfile [id],
          Event.redirect "/profiles" StatusSeeOther], some vals⟩
    else
      ⟨[Event.httpError "Method Not Allowed" StatusMethodNotAllowed], some vals⟩

/-- Handler `register` (handlers.go 311-340). -/
def register (w : Env) : Outcome :=
  let data : TemplateData := ⟨isAuthenticated w, [], Profile.zero⟩
  if w.req.method = "POST" then
    let username := w.req.formValue "username"
    let password := w.req.formValue "password"
    match w.bcryptGenerate password with
    | Except.error e =>
      ⟨[Event.logPrintln e,
        Event.httpError "Internal Server Error" StatusInternalServerError], loaded w⟩
    | Except.ok hashed =>
      match w.dbExec sqlInsertUser [username, hashed] with
      | some e =>
        ⟨[Event.dbExec sqlInsertUser [username, hashed], Event.logPrintln e,
          Event.httpError "Internal Server Error" StatusInternalServerError], loaded w⟩
      | none =>
        ⟨[Event.dbExec sqlInsertUser [username, hashed],
          Event.redirect "/login" StatusSeeOther], loaded w⟩
  else
    ⟨renderTemplate w "register.html" data, loaded w⟩

/-- Handler `login` (handlers.go 342-387). -/
def login (w : Env) : Outcome :=
  let data : TemplateData := ⟨isAuthenticated w, [], Profile.zero⟩
  match w.storeGet with
  | Except.error e => ⟨[Event.httpError e StatusInternalServerError], none⟩
  | Except.ok vals =>
    if w.req.method = "POST" then
      let username := w.req.formValue "username"
      let password := w.req.formValue "password"
      match w.dbQueryRowString sqlSelectPassword [username] with
      | Except.error err =>
        ⟨[Event.dbQueryRow sqlSelectPassword [username], Event.logPrintln err.text,
          Event.httpError "Invalid username or password" StatusUnauthorized], some vals⟩
      | Except.ok storedPassword =>
        match w.bcryptCompare storedPassword password with
        | some _ =>
          ⟨[Event.dbQueryRow sqlSelectPassword [username],
            Event.httpError "Invalid username or password" StatusUnauthorized], some vals⟩
        | none =>
          let vals1 := establish vals username
          match w.sessionSave vals1 with
          | some e =>
            ⟨[Event.dbQueryRow sqlSelectPassword [username],
              Event.sessionSet "authenticated" (Value.bool true),
              Event.sessionSet "username" (Value.str username),
              Event.sessionSave vals1, Event.logPrintln e,
              Event.httpError "Internal Server Error" StatusInternalServerError], some vals1⟩
          | none =>
            ⟨[Event.dbQueryRow sqlSelectPassword [username],
              Event.sessionSet "authenticated" (Value.bool true),
              Event.sessionSet "username" (Value.str username),
              Event.sessionSave vals1,
              Event.redirect "/profiles" StatusSeeOther], some vals1⟩
    else
      ⟨renderTemplate w "login.html" data, some vals⟩

/-- Handler `logout` (handlers.go 389-411). -/
def logout (w : Env) : Outcome :=
  match w.storeGet with
  | Except.error e => ⟨[Event.httpError e StatusInternalServerError], none⟩
  | Except.ok vals =>
    let vals1 := clearValues vals
    let dels := (mapKeys vals).map Event.sessionDelete
    match w.sessionSave vals1 with
    | some e =>
      ⟨dels ++ [Event.sessionSave vals1, Event.httpError e StatusInternalServerError], some vals1⟩
    | none =>
      ⟨dels ++ [Event.sessionSave vals1, Event.redirect "/login" StatusSeeOther], some vals1⟩

/-- The routes registered in `routing` (routes.go 13-22). -/
inductive Handler where
  | index | profiles | profile | addProfile | editProfile | deleteProfile
  | register | login | logout
  deriving DecidableEq, Repr

/-- The handler function of a route. -/
def Handler.run : Handler → Env → Outcome
  | Handler.index => Gowebber.index
  | Handler.profiles => Gowebber.profiles
  | Handler.profile => Gowebber.profile
  | Handler.addProfile => Gowebber.addProfile
  | Handler.editProfile => Gowebber.editProfile
  | Handler.deleteProfile => Gowebber.deleteProfile
  | Handler.register => Gowebber.register
  | Handler.login => Gowebber.login
  | Handler.logout => Gowebber.logout

/-! ## Observations on a trace -/

/-- Events that write to the HTTP response. -/
def Event.isResponse : Event → Bool
  | Event.httpError _ _ => true
  | Event.redirect _ _ => true
  | Event.templateExecute _ _ => true
  | _ => false

/-- Events that call the database (`DB.Query`, `DB.QueryRow`, `DB.Exec`). -/
def Event.isDbCall : Event → Bool
  | Event.dbQuery _ _ => true
  | Event.dbQueryRow _ _ => true
  | Event.dbExec _ _ => true
  | _ => false

/-- Events that save the session (write the cookie). -/
def Event.isSessionSave : Event → Bool
  | Event.sessionSave _ => true
  | _ => false

/-- Events that end the process (`log.Fatal`). -/
def Event.isFatal : Event → Bool
  | Event.fatal _ => true
  | _ => false

/-- What the client receives, in order. -/
def responses (evs : List Event) : List Event := evs.filter Event.isResponse

/-- The database calls of a trace. -/
def dbCalls (evs : List Event) : List Event := evs.filter Event.isDbCall

/-- The session saves of a trace. -/
def sessionSaves (evs : List Event) : List Event := evs.filter Event.isSessionSave

/-- Whether the run ended the process. -/
def terminated (evs : List Event) : Bool := evs.any Event.isFatal

/-- HTTP status of the response: the first write decides it, a template
written without an explicit header is a 200. -/
def status : List Event → Option Nat
  | [] => none
  | Event.httpError _ c :: _ => some c
  | Event.redirect _ c :: _ => some c
  | Event.templateExecute _ _ :: _ => some 200
  | _ :: rest => status rest

/-! ## Sample environments and the vocabulary of the claims -/

/-- An environment whose collaborators answer the same whatever they are asked:
`q` for `DB.Query`, `qp` and `qs` for the two kinds of `QueryRow`, `ex` for
`DB.Exec`, `cmp` for the bcrypt comparison; saving, hashing and rendering
succeed. -/
def constEnv (r : Request) (s : Except String Values)
    (q : Except String (List (Except String Profile))) (qp : Except DBError Profile)
    (qs : Except DBError String) (ex : Option String) (cmp : Option String) : Env :=
  ⟨r, s, fun _ => none, fun _ => q, fun _ _ => qp, fun _ _ => qs, fun _ _ => ex,
   fun p => Except.ok p, fun _ _ => cmp, fun _ _ => none, fun _ _ => none⟩

/-- An environment with empty tables in which every call succeeds. -/
def quietEnv (r : Request) (s : Except String Values) : Env :=
  constEnv r s (Except.ok []) (Except.error DBError.noRows) (Except.error DBError.noRows)
    none none

/-- An environment whose database refuses every call with a storage error. -/
def brokenDbEnv (r : Request) (s : Except String Values) : Env :=
  constEnv r s (Except.error "dial tcp: connection refused")
    (Except.error (DBError.storage "dial tcp: connection refused"))
    (Except.error (DBError.storage "dial tcp: connection refused"))
    (some "dial tcp: connection refused") none

/-- Values of a session established for alice. -/
def aliceValues : Values :=
  [("username", Value.str "alice"), ("authenticated", Value.bool true)]

/-- A GET request whose cookie does not verify against the current key. -/
def staleCookieEnv : Env :=
  quietEnv ⟨"GET", [], []⟩ (Except.error "securecookie: the value is not valid")

/-- The condition under which `login` reaches its establish step: a POST whose
username has a stored hash that bcrypt accepts for the submitted password. -/
def PasswordVerified (w : Env) : Prop :=
  w.req.method = "POST" ∧
  ∃ hash, w.dbQueryRowString sqlSelectPassword [w.req.formValue "username"] = Except.ok hash ∧
    w.bcryptCompare hash (w.req.formValue "password") = none

/-- A login POST by alice with the right password, from an anonymous session. -/
def aliceLoginEnv : Env :=
  constEnv ⟨"POST", [], [("username", "alice"), ("password", "secret123")]⟩ (Except.ok [])
    (Except.ok []) (Except.error DBError.noRows) (Except.ok "$2a$10$hash") none none

/-- A login POST by alice with a wrong password. -/
def aliceWrongPasswordEnv : Env :=
  constEnv ⟨"POST", [], [("username", "alice"), ("password", "guess")]⟩ (Except.ok [])
    (Except.ok []) (Except.error DBError.noRows) (Except.ok "$2a$10$hash") none
    (some "crypto/bcrypt: hashedPassword is not the hash of the given password")

/-- A login POST for a username that has no row. -/
def unknownUserEnv : Env :=
  quietEnv ⟨"POST", [], [("username", "mallory"), ("password", "guess")]⟩ (Except.ok [])

/-- The methods each profile route is meant to accept (spec, section 6). -/
def routeMethods : Handler → List String
  | Handler.profiles => ["GET"]
  | Handler.profile => ["GET"]
  | Handler.addProfile => ["GET", "POST"]
  | Handler.editProfile => ["GET", "POST"]
  | Handler.deleteProfile => ["GET", "POST"]
  | _ => []

/-- An anonymous PUT request. -/
def anonymousPutEnv : Env :=
  quietEnv ⟨"PUT", [], []⟩ (Except.ok [])

/-- Text that reads as an integer: an optional sign, then one or more decimal
digits. -/
def isIntegerText (s : String) : Bool :=
  match s.data with
  | [] => false
  | c :: cs =>
    if c = '+' ∨ c = '-' then !cs.isEmpty && cs.all Char.isDigit
    else (c :: cs).all Char.isDigit

/-- An authenticated POST to /addprofile whose age is not a number; the store
rejects the insert. -/
def badAgeEnv : Env :=
  constEnv ⟨"POST", [], [("name", "Bob"), ("age", "abc"), ("occupation", "Engineer")]⟩
    (Except.ok aliceValues) (Except.ok []) (Except.error DBError.noRows)
    (Except.error DBError.noRows) (some "pq: invalid input syntax for type integer") none

/-- An authenticated POST of the edit or delete form without an id. -/
def missingIdPostEnv : Env :=
  quietEnv ⟨"POST", [], [("name", "Bob"), ("age", "30"), ("occupation", "Engineer")]⟩
    (Except.ok aliceValues)

/-- An authenticated GET of /profile?id=7 while the database is unreachable. -/
def brokenViewEnv : Env :=
  brokenDbEnv ⟨"GET", [("id", "7")], [("id", "7")]⟩ (Except.ok aliceValues)

/-- An authenticated POST of the edit form for id 7 while the database is
unreachable. -/
def brokenEditEnv : Env :=
  brokenDbEnv ⟨"POST", [], [("id", "7"), ("name", "Bob"), ("age", "30"),
    ("occupation", "Engineer")]⟩ (Except.ok aliceValues)

/-- The handler answered with this error body and status alone, and returned
without ending the process. -/
def AnswersError (o : Outcome) (body : String) (code : Nat) : Prop :=
  responses o.events = [Event.httpError body code] ∧ terminated o.events = false

/-! ## Lemmas on the session map -/

theorem authFlag_eq_true_iff (vals : Values) :
    authFlag vals = true ↔ mapGet vals "authenticated" = some (Value.bool true) := by
  unfold authFlag
  cases hv : mapGet vals "authenticated" with
  | none => simp [assertBool]
  | some v => cases v <;> simp [assertBool]

theorem gate_closed_of_anonymous (vals : Values)
    (h : mapGet vals "authenticated" ≠ some (Value.bool true)) :
    (!(assertBool (mapGet vals "authenticated")).2 ||
      !(assertBool (mapGet vals "authenticated")).1) = true := by
  cases hv : mapGet vals "authenticated" with
  | none => simp [assertBool]
  | some v =>
    cases v with
    | bool b => cases b <;> simp_all [assertBool]
    | str s => simp [assertBool]
    | int i => simp [assertBool]

theorem gate_open_of_authenticated (vals : Values) (h : authFlag vals = true) :
    (!(assertBool (mapGet vals "authenticated")).2 ||
      !(assertBool (mapGet vals "authenticated")).1) = false := by
  rw [authFlag_eq_true_iff] at h
  simp [h, assertBool]

theorem foldl_mapDelete_nil (ks : List String) :
    ∀ m : Values, (∀ p ∈ m, p.1 ∈ ks) → ks.foldl mapDelete m = [] := by
  induction ks with
  | nil =>
    intro m hm
    cases m with
    | nil => rfl
    | cons p t => exact absurd (hm p (List.mem_cons_self _ _)) (List.not_mem_nil _)
  | cons k ks ih =>
    intro m hm
    rw [List.foldl_cons]
    apply ih
    intro p hp
    unfold mapDelete at hp
    rw [List.mem_filter] at hp
    have hk := hm p hp.1
    rcases List.mem_cons.mp hk with h1 | h2
    · have := hp.2
      simp [h1] at this
    · exact h2

theorem clearValues_eq_nil (vals : Values) : clearValues vals = [] := by
  unfold clearValues
  apply foldl_mapDelete_nil
  intro p hp
  unfold mapKeys
  exact List.mem_map_of_mem _ hp

theorem authFlag_establish (vals : Values) (username : String) :
    authFlag (establish vals username) = true := by
  rw [authFlag_eq_true_iff]
  simp [establish, mapSet, mapGet, mapDelete, List.lookup]

/-- The test for an anonymous request in the five gated handlers. -/
theorem anonymous_gate (w : Env) (vals : Values) (h : Handler) (hs : w.storeGet = Except.ok vals)
    (ha : mapGet vals "authenticated" ≠ some (Value.bool true))
    (hm : (h, w.req.method) ∈ [(Handler.profiles, "GET"), (Handler.profile, "GET"),
      (Handler.addProfile, "POST"), (Handler.editProfile, "POST"),
      (Handler.deleteProfile, "POST")]) :
    (h.run w).events
      = [Event.logPrintln msgNotAuthenticated, Event.redirect "/login" StatusSeeOther] := by
  have hg := gate_closed_of_anonymous vals ha
  simp only [List.mem_cons, Prod.mk.injEq, List.mem_singleton, List.not_mem_nil, or_false] at hm
  rcases hm with ⟨rfl, hm⟩ | ⟨rfl, hm⟩ | ⟨rfl, hm⟩ | ⟨rfl, hm⟩ | ⟨rfl, hm⟩
  · simp only [Handler.run, profiles, hs, hm, hg]; simp
  · simp only [Handler.run, profile, hs, hm, hg]; simp
  · simp only [Handler.run, addProfile, hs, hm, hg]; simp
  · simp only [Handler.run, editProfile, hs, hm, hg]; simp
  · simp only [Handler.run, deleteProfile, hs, hm, hg]; simp


/-! ## Lemmas on the template renderer -/

theorem renderTemplate_cases (w : Env) (tmpl : String) (data : TemplateData) :
    (∃ e, renderTemplate w tmpl data = [Event.httpError e StatusInternalServerError]) ∨
    renderTemplate w tmpl data = [Event.templateExecute ("templates/" ++ tmpl) data] ∨
    (∃ e, renderTemplate w tmpl data = [Event.templateExecute ("templates/" ++ tmpl) data,
      Event.httpError e StatusInternalServerError]) := by
  simp only [renderTemplate]
  cases hp : w.parseFiles "templates/base.html" ("templates/" ++ tmpl) with
  | some e => exact Or.inl ⟨e, rfl⟩
  | none =>
    cases hx : w.execute ("templates/" ++ tmpl) data with
    | none => exact Or.inr (Or.inl rfl)
    | some e => exact Or.inr (Or.inr ⟨e, rfl⟩)

theorem renderTemplate_no_sessionSet (w : Env) (tmpl : String) (data : TemplateData)
    (k : String) (v : Value) : Event.sessionSet k v ∉ renderTemplate w tmpl data := by
  rcases renderTemplate_cases w tmpl data with ⟨e, h⟩ | h | ⟨e, h⟩ <;> simp [h]

theorem renderTemplate_sessionSaves (w : Env) (tmpl : String) (data : TemplateData) :
    sessionSaves (renderTemplate w tmpl data) = [] := by
  rcases renderTemplate_cases w tmpl data with ⟨e, h⟩ | h | ⟨e, h⟩ <;>
    simp [h, sessionSaves, Event.isSessionSave]

theorem renderTemplate_dbCalls (w : Env) (tmpl : String) (data : TemplateData) :
    dbCalls (renderTemplate w tmpl data) = [] := by
  rcases renderTemplate_cases w tmpl data with ⟨e, h⟩ | h | ⟨e, h⟩ <;>
    simp [h, dbCalls, Event.isDbCall]

/-! ## Lemmas on trace observations -/

theorem sessionSaves_nil : sessionSaves [] = [] := rfl

theorem sessionSaves_cons (e : Event) (evs : List Event) :
    sessionSaves (e :: evs)
      = if e.isSessionSave = true then e :: sessionSaves evs else sessionSaves evs := by
  simp [sessionSaves, List.filter_cons]

theorem sessionSaves_append (xs ys : List Event) :
    sessionSaves (xs ++ ys) = sessionSaves xs ++ sessionSaves ys := by
  simp [sessionSaves]

/-! ## Claims -/

/-- C1: when the session loads and is anonymous (the "authenticated" value is
absent, not a boolean, or false), profiles (GET), profile (GET), addProfile
(POST), editProfile (POST) and deleteProfile (POST) answer with a redirect to
/login and make no database call. -/
theorem anonymous_redirects_to_login_without_db (w : Env) (vals : Values) (h : Handler)
    (hs : w.storeGet = Except.ok vals)
    (ha : mapGet vals "authenticated" ≠ some (Value.bool true))
    (hm : (h, w.req.method) ∈ [(Handler.profiles, "GET"), (Handler.profile, "GET"),
      (Handler.addProfile, "POST"), (Handler.editProfile, "POST"),
      (Handler.deleteProfile, "POST")]) :
    responses (h.run w).events = [Event.redirect "/login" StatusSeeOther] ∧
    status (h.run w).events = some StatusSeeOther ∧
    dbCalls (h.run w).events = [] := by
  rw [anonymous_gate w vals h hs ha hm]
  exact ⟨rfl, rfl, rfl⟩

/-- Instance: a POST to /addprofile whose session holds a string under "authenticated". -/
theorem anonymous_redirects_to_login_without_db_witness :
    responses (Handler.addProfile.run (quietEnv ⟨"POST", [], [("name", "Bob"), ("age", "30"),
        ("occupation", "Engineer")]⟩ (Except.ok [("authenticated", Value.str "yes")]))).events
      = [Event.redirect "/login" StatusSeeOther] ∧
    status (Handler.addProfile.run (quietEnv ⟨"POST", [], [("name", "Bob"), ("age", "30"),
        ("occupation", "Engineer")]⟩ (Except.ok [("authenticated", Value.str "yes")]))).events
      = some StatusSeeOther ∧
    dbCalls (Handler.addProfile.run (quietEnv ⟨"POST", [], [("name", "Bob"), ("age", "30"),
        ("occupation", "Engineer")]⟩ (Except.ok [("authenticated", Value.str "yes")]))).events
      = [] :=
  anonymous_redirects_to_login_without_db
    (quietEnv ⟨"POST", [], [("name", "Bob"), ("age", "30"), ("occupation", "Engineer")]⟩
      (Except.ok [("authenticated", Value.str "yes")]))
    [("authenticated", Value.str "yes")] Handler.addProfile rfl (by decide) (by decide)

/-- C4: when the session loads, isAuthenticated is true exactly when the key
"authenticated" is present and holds the boolean true; a missing key, false, or
a value that is not a boolean give false; the result depends on the loaded
session only. -/
theorem isAuthenticated_iff_flag_true (w : Env) (vals : Values)
    (hs : w.storeGet = Except.ok vals) :
    (isAuthenticated w = true ↔ mapGet vals "authenticated" = some (Value.bool true)) ∧
    (mapGet vals "authenticated" = none → isAuthenticated w = false) ∧
    (mapGet vals "authenticated" = some (Value.bool false) → isAuthenticated w = false) ∧
    (∀ s, mapGet vals "authenticated" = some (Value.str s) → isAuthenticated w = false) ∧
    (∀ i, mapGet vals "authenticated" = some (Value.int i) → isAuthenticated w = false) ∧
    (∀ w2 : Env, w2.storeGet = w.storeGet → isAuthenticated w2 = isAuthenticated w) := by
  have hw : isAuthenticated w = authFlag vals := by simp [isAuthenticated, hs]
  refine ⟨?_, ?_, ?_, ?_, ?_, ?_⟩
  · rw [hw]; exact authFlag_eq_true_iff vals
  · intro h; rw [hw]; simp [authFlag, h, assertBool]
  · intro h; rw [hw]; simp [authFlag, h, assertBool]
  · intro s h; rw [hw]; simp [authFlag, h, assertBool]
  · intro i h; rw [hw]; simp [authFlag, h, assertBool]
  · intro w2 h2; simp [isAuthenticated, h2]

/-- Instance: a GET carrying the session established for alice. -/
theorem isAuthenticated_iff_flag_true_witness :
    isAuthenticated (quietEnv ⟨"GET", [], []⟩ (Except.ok aliceValues)) = true ↔
      mapGet aliceValues "authenticated" = some (Value.bool true) :=
  (isAuthenticated_iff_flag_true (quietEnv ⟨"GET", [], []⟩ (Except.ok aliceValues))
    aliceValues rfl).1

/-- C5: after the establish step of login (authenticated=true and the username
written) the session tests as authenticated; after the clear step of logout,
applied to any values and so also to established ones, the map is empty and the
session tests as not authenticated. -/
theorem establish_then_clear (vals : Values) (username : String) :
    authFlag (establish vals username) = true ∧
    (∀ w : Env, w.storeGet = Except.ok (establish vals username) → isAuthenticated w = true) ∧
    clearValues vals = [] ∧
    clearValues (establish vals username) = [] ∧
    authFlag (clearValues vals) = false ∧
    authFlag (clearValues (establish vals username)) = false ∧
    (∀ w : Env, w.storeGet = Except.ok (clearValues (establish vals username)) →
      isAuthenticated w = false) := by
  refine ⟨authFlag_establish vals username, ?_, clearValues_eq_nil vals,
    clearValues_eq_nil _, ?_, ?_, ?_⟩
  · intro w hw
    simp [isAuthenticated, hw, authFlag_establish]
  · rw [clearValues_eq_nil]; rfl
  · rw [clearValues_eq_nil]; rfl
  · intro w hw
    rw [clearValues_eq_nil] at hw
    simp [isAuthenticated, hw]
    rfl

/-- C2 (as stated, refuted): for a GET whose cookie does not verify, so that
store.Get returns an error, isAuthenticated is false but each of profiles,
profile, addProfile, editProfile, deleteProfile, login and logout answers 500. -/
theorem session_error_gives_500_counterexample :
    isAuthenticated staleCookieEnv = false ∧
    ∀ h ∈ [Handler.profiles, Handler.profile, Handler.addProfile, Handler.editProfile,
        Handler.deleteProfile, Handler.login, Handler.logout],
      (h.run staleCookieEnv).events
        = [Event.httpError "securecookie: the value is not valid" StatusInternalServerError] := by
  decide

/-- C2 (amended): when store.Get returns an error, isAuthenticated is false and
no database call is made, and each of profiles, profile, addProfile,
editProfile, deleteProfile, login and logout answers 500 with the text of the
error, except that profiles and profile answer 405 to a method other than GET
before they load the session. -/
theorem session_error_behaviour (w : Env) (e : String) (h : Handler)
    (hs : w.storeGet = Except.error e)
    (hh : h ∈ [Handler.profiles, Handler.profile, Handler.addProfile, Handler.editProfile,
        Handler.deleteProfile, Handler.login, Handler.logout]) :
    isAuthenticated w = false ∧
    (h.run w).events
      = (if (h = Handler.profiles ∨ h = Handler.profile) ∧ w.req.method ≠ "GET"
          then [Event.httpError "Method Not Allowed" StatusMethodNotAllowed]
          else [Event.httpError e StatusInternalServerError]) ∧
    dbCalls (h.run w).events = [] ∧
    (h.run w).session = none := by
  have hl : loaded w = none := by simp [loaded, hs]
  refine ⟨by simp [isAuthenticated, hs], ?_⟩
  simp only [List.mem_cons, List.mem_singleton, List.not_mem_nil, or_false] at hh
  rcases hh with rfl | rfl | rfl | rfl | rfl | rfl | rfl
  · by_cases hm : w.req.method = "GET" <;>
      simp [Handler.run, profiles, hs, hm, hl, dbCalls, Event.isDbCall]
  · by_cases hm : w.req.method = "GET" <;>
      simp [Handler.run, profile, hs, hm, hl, dbCalls, Event.isDbCall]
  · simp [Handler.run, addProfile, hs, dbCalls, Event.isDbCall]
  · simp [Handler.run, editProfile, hs, dbCalls, Event.isDbCall]
  · simp [Handler.run, deleteProfile, hs, dbCalls, Event.isDbCall]
  · simp [Handler.run, login, hs, dbCalls, Event.isDbCall]
  · simp [Handler.run, logout, hs, dbCalls, Event.isDbCall]

/-- Instance: logout on a cookie that does not verify. -/
theorem session_error_behaviour_witness :
    isAuthenticated staleCookieEnv = false ∧
    (Handler.logout.run staleCookieEnv).events
      = [Event.httpError "securecookie: the value is not valid" StatusInternalServerError] ∧
    dbCalls (Handler.logout.run staleCookieEnv).events = [] ∧
    (Handler.logout.run staleCookieEnv).session = none :=
  session_error_behaviour staleCookieEnv "securecookie: the value is not valid" Handler.logout
    rfl (by decide)

/-- C6: on a POST to login whose session loads, the answer when the username
lookup fails and the answer when the hash comparison fails are the same: status
401 with body "Invalid username or password", no session saved, no redirect,
the session values untouched. -/
theorem login_failures_indistinguishable (w1 w2 : Env) (v1 v2 : Values) (err : DBError)
    (hash msg : String)
    (hs1 : w1.storeGet = Except.ok v1) (hs2 : w2.storeGet = Except.ok v2)
    (hm1 : w1.req.method = "POST") (hm2 : w2.req.method = "POST")
    (hq1 : w1.dbQueryRowString sqlSelectPassword [w1.req.formValue "username"]
      = Except.error err)
    (hq2 : w2.dbQueryRowString sqlSelectPassword [w2.req.formValue "username"]
      = Except.ok hash)
    (hc2 : w2.bcryptCompare hash (w2.req.formValue "password") = some msg) :
    responses (login w1).events = responses (login w2).events ∧
    responses (login w1).events
      = [Event.httpError "Invalid username or password" StatusUnauthorized] ∧
    status (login w1).events = some StatusUnauthorized ∧
    status (login w2).events = some StatusUnauthorized ∧
    sessionSaves (login w1).events = [] ∧ sessionSaves (login w2).events = [] ∧
    (login w1).session = some v1 ∧ (login w2).session = some v2 := by
  have e1 : login w1 = ⟨[Event.dbQueryRow sqlSelectPassword [w1.req.formValue "username"],
      Event.logPrintln err.text,
      Event.httpError "Invalid username or password" StatusUnauthorized], some v1⟩ := by
    simp [login, hs1, hm1, hq1]
  have e2 : login w2 = ⟨[Event.dbQueryRow sqlSelectPassword [w2.req.formValue "username"],
      Event.httpError "Invalid username or password" StatusUnauthorized], some v2⟩ := by
    simp [login, hs2, hm2, hq2, hc2]
  rw [e1, e2]
  exact ⟨rfl, rfl, rfl, rfl, rfl, rfl, rfl, rfl⟩

/-- Instance: an unknown user against a wrong password for alice. -/
theorem login_failures_indistinguishable_witness :
    responses (login unknownUserEnv).events = responses (login aliceWrongPasswordEnv).events ∧
    responses (login unknownUserEnv).events
      = [Event.httpError "Invalid username or password" StatusUnauthorized] ∧
    status (login unknownUserEnv).events = some StatusUnauthorized ∧
    status (login aliceWrongPasswordEnv).events = some StatusUnauthorized ∧
    sessionSaves (login unknownUserEnv).events = [] ∧
    sessionSaves (login aliceWrongPasswordEnv).events = [] ∧
    (login unknownUserEnv).session = some [] ∧
    (login aliceWrongPasswordEnv).session = some [] :=
  login_failures_indistinguishable unknownUserEnv aliceWrongPasswordEnv [] [] DBError.noRows
    "$2a$10$hash" "crypto/bcrypt: hashedPassword is not the hash of the given password"
    rfl rfl rfl rfl rfl rfl rfl

/-- C3: over all handlers, true is written to the "authenticated" key of the
session only by login, on a POST, after the stored hash of the submitted
username was found and bcrypt accepted the password (and then it is written);
on every other path of login (another method, unknown user, wrong password) the
session values are as loaded and no session is saved; no other handler writes a
session value, and apart from logout, which empties the map, none changes or
saves the session. -/
theorem authenticated_written_only_after_verification (h : Handler) (w : Env) :
    (Event.sessionSet "authenticated" (Value.bool true) ∈ (h.run w).events →
      h = Handler.login ∧ PasswordVerified w) ∧
    (PasswordVerified w → ∀ vals, w.storeGet = Except.ok vals →
      Event.sessionSet "authenticated" (Value.bool true) ∈ (login w).events ∧
      (login w).session = some (establish vals (w.req.formValue "username"))) ∧
    (¬ PasswordVerified w →
      (login w).session = loaded w ∧ sessionSaves (login w).events = [] ∧
      ∀ k v, Event.sessionSet k v ∉ (login w).events) ∧
    (h ≠ Handler.login → ∀ k v, Event.sessionSet k v ∉ (h.run w).events) ∧
    (h ≠ Handler.login → h ≠ Handler.logout →
      (h.run w).session = loaded w ∧ sessionSaves (h.run w).events = []) ∧
    (∀ vals ∈ (logout w).session, vals = []) := by
  have hlogin_not : ¬ PasswordVerified w →
      (login w).session = loaded w ∧ sessionSaves (login w).events = [] ∧
      ∀ k v, Event.sessionSet k v ∉ (login w).events := by
    intro hnv
    unfold PasswordVerified at hnv
    cases hs : w.storeGet with
    | error e => simp [login, loaded, hs, sessionSaves_cons, sessionSaves_nil, Event.isSessionSave]
    | ok vals =>
      by_cases hm : w.req.method = "POST"
      · cases hq : w.dbQueryRowString sqlSelectPassword [w.req.formValue "username"] with
        | error err => simp [login, loaded, hs, hm, hq, sessionSaves_cons, sessionSaves_nil, Event.isSessionSave]
        | ok hash =>
          cases hc : w.bcryptCompare hash (w.req.formValue "password") with
          | some msg => simp [login, loaded, hs, hm, hq, hc, sessionSaves_cons, sessionSaves_nil, Event.isSessionSave]
          | none => exact absurd ⟨hm, hash, hq, hc⟩ hnv
      · simp [login, loaded, hs, hm, renderTemplate_sessionSaves, renderTemplate_no_sessionSet]
  have hlogin_yes : PasswordVerified w → ∀ vals, w.storeGet = Except.ok vals →
      Event.sessionSet "authenticated" (Value.bool true) ∈ (login w).events ∧
      (login w).session = some (establish vals (w.req.formValue "username")) := by
    rintro ⟨hm, hash, hq, hc⟩ vals hs
    simp only [login, hs, hm, hq, hc]
    cases w.sessionSave (establish vals (w.req.formValue "username")) <;> simp
  have hothers : h ≠ Handler.login → ∀ k v, Event.sessionSet k v ∉ (h.run w).events := by
    intro hne k v
    cases h with
    | login => exact absurd rfl hne
    | index =>
      simp only [Handler.run, index]
      split <;> simp [renderTemplate_no_sessionSet]
    | profiles =>
      simp only [Handler.run, profiles]
      repeat' split
      all_goals simp [renderTemplate_no_sessionSet]
    | profile =>
      simp only [Handler.run, profile]
      repeat' split
      all_goals simp [renderTemplate_no_sessionSet]
    | addProfile =>
      simp only [Handler.run, addProfile]
      repeat' split
      all_goals simp [renderTemplate_no_sessionSet]
    | editProfile =>
      simp only [Handler.run, editProfile]
      repeat' split
      all_goals simp [renderTemplate_no_sessionSet]
    | deleteProfile =>
      simp only [Handler.run, deleteProfile]
      repeat' split
      all_goals simp [renderTemplate_no_sessionSet]
    | register =>
      simp only [Handler.run, register]
      repeat' split
      all_goals simp [renderTemplate_no_sessionSet]
    | logout =>
      simp only [Handler.run, logout]
      repeat' split
      all_goals simp
  have hunchanged : h ≠ Handler.login → h ≠ Handler.logout →
      (h.run w).session = loaded w ∧ sessionSaves (h.run w).events = [] := by
    intro hne1 hne2
    cases h with
    | login => exact absurd rfl hne1
    | logout => exact absurd rfl hne2
    | index =>
      simp only [Handler.run, index]
      split <;> simp [sessionSaves_cons, sessionSaves_append, sessionSaves_nil,
        Event.isSessionSave, renderTemplate_sessionSaves]
    | profiles =>
      simp only [Handler.run, profiles, loaded]
      repeat' split
      all_goals simp_all [sessionSaves_cons, sessionSaves_nil, Event.isSessionSave,
        renderTemplate_sessionSaves]
    | profile =>
      simp only [Handler.run, profile, loaded]
      repeat' split
      all_goals simp_all [sessionSaves_cons, sessionSaves_nil, Event.isSessionSave,
        renderTemplate_sessionSaves]
    | addProfile =>
      simp only [Handler.run, addProfile, loaded]
      repeat' split
      all_goals simp_all [sessionSaves_cons, sessionSaves_nil, Event.isSessionSave,
        renderTemplate_sessionSaves]
    | editProfile =>
      simp only [Handler.run, editProfile, loaded]
      repeat' split
      all_goals simp_all [sessionSaves_cons, sessionSaves_nil, Event.isSessionSave,
        renderTemplate_sessionSaves]
    | deleteProfile =>
      simp only [Handler.run, deleteProfile, loaded]
      repeat' split
      all_goals simp_all [sessionSaves_cons, sessionSaves_nil, Event.isSessionSave,
        renderTemplate_sessionSaves]
    | register =>
      simp only [Handler.run, register, loaded]
      repeat' split
      all_goals simp_all [sessionSaves_cons, sessionSaves_nil, Event.isSessionSave,
        renderTemplate_sessionSaves]
  refine ⟨?_, hlogin_yes, hlogin_not, hothers, hunchanged, ?_⟩
  · intro hmem
    by_cases hl : h = Handler.login
    · subst hl
      refine ⟨rfl, ?_⟩
      by_contra hnv
      exact (hlogin_not hnv).2.2 _ _ hmem
    · exact absurd hmem (hothers hl _ _)
  · intro vals hv
    cases hs : w.storeGet with
    | error e => simp [logout, hs] at hv
    | ok v0 =>
      cases hsv : w.sessionSave (clearValues v0) with
      | some e =>
        simp only [logout, hs, hsv] at hv
        simp [clearValues_eq_nil] at hv
        exact hv
      | none =>
        simp only [logout, hs, hsv] at hv
        simp [clearValues_eq_nil] at hv
        exact hv

/-- Instance: the login of alice with the right password. -/
theorem authenticated_written_only_after_verification_witness :
    Event.sessionSet "authenticated" (Value.bool true) ∈ (login aliceLoginEnv).events ∧
    (login aliceLoginEnv).session = some (establish [] "alice") :=
  (authenticated_written_only_after_verification Handler.login aliceLoginEnv).2.1
    ⟨rfl, "$2a$10$hash", rfl, rfl⟩ [] rfl

/-- C7 (as stated, refuted): an anonymous PUT to addProfile, a method the
route does not allow, is answered by the redirect to /login, not by 405. -/
theorem method_check_first_counterexample :
    anonymousPutEnv.req.method ∉ routeMethods Handler.addProfile ∧
    (addProfile anonymousPutEnv).events
      = [Event.logPrintln msgNotAuthenticated, Event.redirect "/login" StatusSeeOther] ∧
    status (addProfile anonymousPutEnv).events ≠ some StatusMethodNotAllowed := by
  decide

/-- C7 (amended): for a method the route does not allow, profiles and profile
answer 405 as their first step, whatever the session; addProfile, editProfile
and deleteProfile load the session and run the gate first, and answer 405 only
when the session loads and is authenticated (500 when it does not load, the
redirect to /login when it is anonymous). -/
theorem disallowed_method_response (w : Env) (h : Handler)
    (hh : h ∈ [Handler.profiles, Handler.profile, Handler.addProfile, Handler.editProfile,
      Handler.deleteProfile])
    (hm : w.req.method ∉ routeMethods h) :
    (h.run w).events
      = if h = Handler.profiles ∨ h = Handler.profile then
          [Event.httpError "Method Not Allowed" StatusMethodNotAllowed]
        else
          match w.storeGet with
          | Except.error e => [Event.httpError e StatusInternalServerError]
          | Except.ok vals =>
            if authFlag vals = true then
              [Event.httpError "Method Not Allowed" StatusMethodNotAllowed]
            else
              [Event.logPrintln msgNotAuthenticated, Event.redirect "/login" StatusSeeOther] := by
  simp only [List.mem_cons, List.mem_singleton, List.not_mem_nil, or_false] at hh
  rcases hh with rfl | rfl | rfl | rfl | rfl
  · have hg : w.req.method ≠ "GET" := by simpa [routeMethods] using hm
    simp [Handler.run, profiles, hg]
  · have hg : w.req.method ≠ "GET" := by simpa [routeMethods] using hm
    simp [Handler.run, profile, hg]
  · have hg : w.req.method ≠ "GET" ∧ w.req.method ≠ "POST" := by
      simpa [routeMethods] using hm
    cases hs : w.storeGet with
    | error e => simp [Handler.run, addProfile, hs]
    | ok vals =>
      by_cases ha : authFlag vals = true
      · simp [Handler.run, addProfile, hs, ha, gate_open_of_authenticated vals ha, hg.1, hg.2]
      · have hc := gate_closed_of_anonymous vals
          (fun hx => ha ((authFlag_eq_true_iff vals).2 hx))
        simp only [Handler.run, addProfile, hs, hc]
        simp [ha]
  · have hg : w.req.method ≠ "GET" ∧ w.req.method ≠ "POST" := by
      simpa [routeMethods] using hm
    cases hs : w.storeGet with
    | error e => simp [Handler.run, editProfile, hs]
    | ok vals =>
      by_cases ha : authFlag vals = true
      · simp [Handler.run, editProfile, hs, ha, gate_open_of_authenticated vals ha, hg.1, hg.2]
      · have hc := gate_closed_of_anonymous vals
          (fun hx => ha ((authFlag_eq_true_iff vals).2 hx))
        simp only [Handler.run, editProfile, hs, hc]
        simp [ha]
  · have hg : w.req.method ≠ "GET" ∧ w.req.method ≠ "POST" := by
      simpa [routeMethods] using hm
    cases hs : w.storeGet with
    | error e => simp [Handler.run, deleteProfile, hs]
    | ok vals =>
      by_cases ha : authFlag vals = true
      · simp [Handler.run, deleteProfile, hs, ha, gate_open_of_authenticated vals ha, hg.1, hg.2]
      · have hc := gate_closed_of_anonymous vals
          (fun hx => ha ((authFlag_eq_true_iff vals).2 hx))
        simp only [Handler.run, deleteProfile, hs, hc]
        simp [ha]

/-- Instance: an anonymous PUT to /profiles. -/
theorem disallowed_method_response_witness :
    (Handler.profiles.run anonymousPutEnv).events
      = [Event.httpError "Method Not Allowed" StatusMethodNotAllowed] :=
  disallowed_method_response anonymousPutEnv Handler.profiles (by decide) (by decide)

/-- C8 (as stated, refuted): an authenticated POST to addProfile with the age
text "abc" is not answered 400; the text is handed to DB.Exec as it is, and the
failure of the insert is answered 500. -/
theorem age_not_validated_counterexample :
    isIntegerText (badAgeEnv.req.formValue "age") = false ∧
    (addProfile badAgeEnv).events
      = [Event.dbExec sqlInsertProfile ["Bob", "abc", "Engineer"],
         Event.httpError "Failed to insert into database" StatusInternalServerError] ∧
    status (addProfile badAgeEnv).events ≠ some StatusBadRequest := by
  decide

/-- C8 (amended): in the create path (authenticated POST to addProfile) the age
form value is passed to DB.Exec as text, unchanged and unchecked, whatever it
is; the handler never answers 400: it answers 500 "Failed to insert into
database" when the insert fails and redirects to /profiles when it succeeds. -/
theorem addProfile_passes_age_as_text (w : Env) (vals : Values)
    (hs : w.storeGet = Except.ok vals) (ha : authFlag vals = true)
    (hm : w.req.method = "POST") :
    (addProfile w).events
      = [Event.dbExec sqlInsertProfile
          [w.req.formValue "name", w.req.formValue "age", w.req.formValue "occupation"],
         match w.dbExec sqlInsertProfile
            [w.req.formValue "name", w.req.formValue "age", w.req.formValue "occupation"] with
         | some _ => Event.httpError "Failed to insert into database" StatusInternalServerError
         | none => Event.redirect "/profiles" StatusSeeOther] ∧
    status (addProfile w).events ≠ some StatusBadRequest := by
  have hg := gate_open_of_authenticated vals ha
  simp only [addProfile, hs, hm, hg]
  cases w.dbExec sqlInsertProfile
      [w.req.formValue "name", w.req.formValue "age", w.req.formValue "occupation"] <;>
    simp [status, StatusInternalServerError, StatusSeeOther, StatusBadRequest]

/-- Instance: the age text "abc" posted by alice. -/
theorem addProfile_passes_age_as_text_witness :
    (addProfile badAgeEnv).events
      = [Event.dbExec sqlInsertProfile
          [badAgeEnv.req.formValue "name", badAgeEnv.req.formValue "age",
           badAgeEnv.req.formValue "occupation"],
         match badAgeEnv.dbExec sqlInsertProfile
            [badAgeEnv.req.formValue "name", badAgeEnv.req.formValue "age",
             badAgeEnv.req.formValue "occupation"] with
         | some _ => Event.httpError "Failed to insert into database" StatusInternalServerError
         | none => Event.redirect "/profiles" StatusSeeOther] ∧
    status (addProfile badAgeEnv).events ≠ some StatusBadRequest :=
  addProfile_passes_age_as_text badAgeEnv aliceValues rfl (by decide) rfl

/-- An authenticated GET of profile, editProfile
or deleteProfile with an empty or missing id is answered 400 without a database
call. -/
theorem get_without_id_is_bad_request (w : Env) (vals : Values) (h : Handler)
    (hs : w.storeGet = Except.ok vals) (ha : authFlag vals = true)
    (hm : w.req.method = "GET") (hid : w.req.queryGet "id" = "")
    (hh : h ∈ [Handler.profile, Handler.editProfile, Handler.deleteProfile]) :
    (h.run w).events = [Event.httpError "Profile ID not provided" StatusBadRequest] := by
  have hg := gate_open_of_authenticated vals ha
  simp only [List.mem_cons, List.mem_singleton, List.not_mem_nil, or_false] at hh
  rcases hh with rfl | rfl | rfl
  · simp only [Handler.run, profile, hs, hm, hg, hid]; simp
  · simp only [Handler.run, editProfile, hs, hm, hg, hid]; simp
  · simp only [Handler.run, deleteProfile, hs, hm, hg, hid]; simp

/-- C9 (the code at the failing input): an authenticated POST to editProfile or
deleteProfile whose id form value is empty or missing is not answered 400; the
handler calls DB.Exec with the empty id and answers with the redirect to
/profiles, or with 500 when the store fails. -/
theorem post_without_id_reaches_store (w : Env) (vals : Values)
    (hs : w.storeGet = Except.ok vals) (ha : authFlag vals = true)
    (hm : w.req.method = "POST") (hid : w.req.formValue "id" = "") :
    (editProfile w).events
      = [Event.dbExec sqlUpdateProfile
          [w.req.formValue "name", w.req.formValue "age", w.req.formValue "occupation", ""],
         match w.dbExec sqlUpdateProfile
            [w.req.formValue "name", w.req.formValue "age", w.req.formValue "occupation", ""] with
         | some e => Event.httpError e StatusInternalServerError
         | none => Event.redirect "/profiles" StatusSeeOther] ∧
    (deleteProfile w).events
      = [Event.dbExec sqlDeleteProfile [""],
         match w.dbExec sqlDeleteProfile [""] with
         | some e => Event.httpError e StatusInternalServerError
         | none => Event.redirect "/profiles" StatusSeeOther] ∧
    status (editProfile w).events ≠ some StatusBadRequest ∧
    status (deleteProfile w).events ≠ some StatusBadRequest := by
  have hg := gate_open_of_authenticated vals ha
  simp only [editProfile, deleteProfile, hs, hm, hg, hid]
  cases w.dbExec sqlUpdateProfile
      [w.req.formValue "name", w.req.formValue "age", w.req.formValue "occupation", ""] <;>
    cases w.dbExec sqlDeleteProfile [""] <;>
    simp [status, StatusInternalServerError, StatusSeeOther, StatusBadRequest]

/-- Instance: the edit and delete forms posted by alice without an id. -/
theorem post_without_id_reaches_store_witness :
    (editProfile missingIdPostEnv).events
      = [Event.dbExec sqlUpdateProfile ["Bob", "30", "Engineer", ""],
         Event.redirect "/profiles" StatusSeeOther] ∧
    (deleteProfile missingIdPostEnv).events
      = [Event.dbExec sqlDeleteProfile [""], Event.redirect "/profiles" StatusSeeOther] ∧
    status (editProfile missingIdPostEnv).events ≠ some StatusBadRequest ∧
    status (deleteProfile missingIdPostEnv).events ≠ some StatusBadRequest :=
  post_without_id_reaches_store missingIdPostEnv aliceValues rfl (by decide) rfl rfl

/-- C10 (as stated, refuted): an authenticated GET of /profile?id=7 whose
lookup fails with a storage error (the database is unreachable) is answered
404 "Profile not found", not 500. -/
theorem storage_error_reported_as_404_counterexample :
    brokenViewEnv.dbQueryRowProfile sqlSelectOne ["7"]
      = Except.error (DBError.storage "dial tcp: connection refused") ∧
    (profile brokenViewEnv).events
      = [Event.dbQueryRow sqlSelectOne ["7"],
         Event.httpError "Profile not found" StatusNotFound] ∧
    status (profile brokenViewEnv).events ≠ some StatusInternalServerError :=
  ⟨rfl, by decide, by decide⟩

/-- When DB.Query itself fails in profiles, the handler calls
log.Fatal: the process ends and nothing is written to the response. -/
theorem profiles_query_failure_is_fatal (w : Env) (vals : Values) (e : String)
    (hs : w.storeGet = Except.ok vals) (ha : authFlag vals = true)
    (hm : w.req.method = "GET") (hq : w.dbQuery sqlSelectAll = Except.error e) :
    (profiles w).events = [Event.dbQuery sqlSelectAll [], Event.fatal e] ∧
    terminated (profiles w).events = true ∧ responses (profiles w).events = [] := by
  have hg := gate_open_of_authenticated vals ha
  simp only [profiles, hs, hm, hg, hq]
  simp [terminated, responses, Event.isFatal, Event.isResponse]

/-- C10 (amended): for an authenticated request whose Record Store operation
fails, the handler answers once, does not redirect and returns normally: a
failing DB.Exec is answered 500 (body "Failed to insert into database" in
addProfile, the text of the error in editProfile and deleteProfile), a failing
row Scan in profiles is answered 500 with the text of the error, and a failing
QueryRow lookup in profile, editProfile (GET) or deleteProfile (GET) is
answered 404 "Profile not found" whatever the failure is, a storage error
included. -/
theorem store_failure_responses (w : Env) (vals : Values)
    (hs : w.storeGet = Except.ok vals) (ha : authFlag vals = true) :
    (w.req.method = "POST" →
      (∀ e, w.dbExec sqlInsertProfile
          [w.req.formValue "name", w.req.formValue "age", w.req.formValue "occupation"]
            = some e →
        AnswersError (addProfile w) "Failed to insert into database"
          StatusInternalServerError) ∧
      (∀ e, w.dbExec sqlUpdateProfile
          [w.req.formValue "name", w.req.formValue "age", w.req.formValue "occupation",
            w.req.formValue "id"] = some e →
        AnswersError (editProfile w) e StatusInternalServerError) ∧
      (∀ e, w.dbExec sqlDeleteProfile [w.req.formValue "id"] = some e →
        AnswersError (deleteProfile w) e StatusInternalServerError)) ∧
    (w.req.method = "GET" →
      (∀ rows e, w.dbQuery sqlSelectAll = Except.ok rows → scanRows rows = Except.error e →
        AnswersError (profiles w) e StatusInternalServerError) ∧
      (w.req.queryGet "id" ≠ "" →
        ∀ err, w.dbQueryRowProfile sqlSelectOne [w.req.queryGet "id"] = Except.error err →
          AnswersError (profile w) "Profile not found" StatusNotFound ∧
          AnswersError (editProfile w) "Profile not found" StatusNotFound ∧
          AnswersError (deleteProfile w) "Profile not found" StatusNotFound)) := by
  have hg := gate_open_of_authenticated vals ha
  refine ⟨?_, ?_⟩
  · intro hm
    refine ⟨?_, ?_, ?_⟩
    · intro e he
      simp only [AnswersError, addProfile, hs, hm, hg, he]
      simp [responses, terminated, Event.isResponse, Event.isFatal]
    · intro e he
      simp only [AnswersError, editProfile, hs, hm, hg, he]
      simp [responses, terminated, Event.isResponse, Event.isFatal]
    · intro e he
      simp only [AnswersError, deleteProfile, hs, hm, hg, he]
      simp [responses, terminated, Event.isResponse, Event.isFatal]
  · intro hm
    refine ⟨?_, ?_⟩
    · intro rows e hq hr
      simp only [AnswersError, profiles, hs, hm, hg, hq, hr]
      simp [responses, terminated, Event.isResponse, Event.isFatal]
    · intro hid err hq
      refine ⟨?_, ?_, ?_⟩
      · simp only [AnswersError, profile, hs, hm, hg, hq]
        simp [hid, responses, terminated, Event.isResponse, Event.isFatal]
      · simp only [AnswersError, editProfile, hs, hm, hg, hq]
        simp [hid, responses, terminated, Event.isResponse, Event.isFatal]
      · simp only [AnswersError, deleteProfile, hs, hm, hg, hq]
        simp [hid, responses, terminated, Event.isResponse, Event.isFatal]

/-- Instance: an edit POST and a delete GET for id 7 while the database is unreachable. -/
theorem store_failure_responses_witness :
    AnswersError (editProfile brokenEditEnv) "dial tcp: connection refused"
      StatusInternalServerError ∧
    AnswersError (deleteProfile brokenViewEnv) "Profile not found" StatusNotFound :=
  ⟨((store_failure_responses brokenEditEnv aliceValues rfl (by decide)).1 rfl).2.1
      "dial tcp: connection refused" rfl,
   (((store_failure_responses brokenViewEnv aliceValues rfl (by decide)).2 rfl).2
      (by decide) (DBError.storage "dial tcp: connection refused") rfl).2.2⟩

end Gowebber
